import Mathlib

/-!
Verification of `Andree_Fundraiser_MartinHS_iPhone.py`, an iMessage/SMS
fundraising helper: a shallow embedding of its anti-spam guards, language
detection, FAQ router, OpenAI retry loop, webhook pipeline and bulk-send
loop, together with theorems settling the specification's claims.

Time stamps are modelled as rationals (Python floats never overflow in the
ranges involved); the module-level mutable maps `_last_seen_ts`
(a `defaultdict(float)`, default `0.0`) and `_last_seen_msg` (a `dict`
read through `.get(key, 0.0)`) are modelled as total functions defaulting
to `0`.
-/

namespace Fundraiser

/-! ### Python string primitives

`pyStrip` models Python `str.strip()` (drop leading and trailing
whitespace) and `pyLower` models `str.lower()` restricted to the ASCII
letters that occur in the texts and patterns of this program (the accented
characters in the sources are already lower-case).
-/

def stripChars (l : List Char) : List Char :=
  ((l.dropWhile Char.isWhitespace).reverse.dropWhile Char.isWhitespace).reverse

def pyStrip (s : String) : String := String.mk (stripChars s.data)

def pyLower (s : String) : String := String.mk (s.data.map Char.toLower)

/-- Python `needle in hay` for strings: `needle` occurs as a contiguous
substring of `hay`. -/
def containsSub (hay needle : List Char) : Bool :=
  needle.isPrefixOf hay ||
    match hay with
    | [] => false
    | _ :: t => containsSub t needle

/-! ### Anti-spam guard state

`_last_seen_ts = defaultdict(float)` and `_last_seen_msg = {}` from the
source, as total maps with default `0`. -/

structure GuardState where
  lastSeenTs : String → ℚ
  lastSeenMsg : String × String → ℚ

/-- Fresh process state: both maps empty (= everywhere `0.0`). -/
def initState : GuardState :=
  { lastSeenTs := fun _ => 0, lastSeenMsg := fun _ => 0 }

/-- `too_soon(phone)` from the source:
if `now - _last_seen_ts[phone] < RATE_WINDOW_SEC` return `True`
(state untouched), else record `now` and return `False`. -/
def too_soon (W now : ℚ) (phone : String) (st : GuardState) : Bool × GuardState :=
  if now - st.lastSeenTs phone < W then (true, st)
  else
    (false,
      { st with lastSeenTs := fun p => if p = phone then now else st.lastSeenTs p })

/-- The normalized duplicate key text: `(text or "").strip().lower()`. -/
def normText (text : String) : String := pyLower (pyStrip text)

/-- `is_duplicate(phone, text)` from the source: key on
`(phone, (text or "").strip().lower())`; if `now - _last_seen_msg.get(key, 0.0)
< DUP_WINDOW_SEC` return `True` (state untouched), else record `now` under
the key and return `False`. -/
def is_duplicate (W now : ℚ) (phone text : String) (st : GuardState) :
    Bool × GuardState :=
  let key : String × String := (phone, normText text)
  if now - st.lastSeenMsg key < W then (true, st)
  else
    (false,
      { st with lastSeenMsg := fun k => if k = key then now else st.lastSeenMsg k })

/-! ### Regular expressions

A small matcher for exactly the regex constructs the source's FAQ patterns
use: literals, character classes `[aá]`, `\s+`, `\b`, concatenation and
alternation `(debo|puedo)`, with `re.search` (match anywhere) semantics.
`isWordChar` models Python's `\w` restricted to the alphabet occurring in
this program (ASCII alphanumerics, underscore, and the lower-case accented
letters of the Spanish patterns). -/

def isWordChar (c : Char) : Bool :=
  c.isAlphanum || c = '_' || c ∈ ['á', 'é', 'í', 'ó', 'ú', 'ñ', 'ü']

inductive Rx
  | eps
  | lit (c : Char)
  | cls (cs : List Char)
  | ws
  | wb
  | seq (a b : Rx)
  | alt (a b : Rx)

/-- All ways of consuming one or more leading whitespace characters:
pairs of (last consumed char, remaining input). -/
def spaceRuns : List Char → List (Char × List Char)
  | [] => []
  | c :: rest => if c.isWhitespace then (c, rest) :: spaceRuns rest else []

/-- Backtracking matcher in continuation style. `prev` is the character
just before the current position (`none` at the start of the text), which
`\b` needs; the continuation receives the updated `prev` and the rest of
the input. -/
def rmatch : Rx → (Option Char → List Char → Bool) → Option Char → List Char → Bool
  | .eps, k, prev, s => k prev s
  | .lit c, k, _, s =>
    match s with
    | [] => false
    | c2 :: rest => c2 = c && k (some c2) rest
  | .cls cs, k, _, s =>
    match s with
    | [] => false
    | c2 :: rest => cs.contains c2 && k (some c2) rest
  | .ws, k, _, s => (spaceRuns s).any fun pr => k (some pr.1) pr.2
  | .wb, k, prev, s =>
    let before := match prev with | none => false | some c => isWordChar c
    let after := match s with | [] => false | c :: _ => isWordChar c
    (before != after) && k prev s
  | .seq a b, k, prev, s => rmatch a (fun p2 s2 => rmatch b k p2 s2) prev s
  | .alt a b, k, prev, s => rmatch a k prev s || rmatch b k prev s

/-- `re.search`: try to match at every position of the text. -/
def rsearchAux (r : Rx) : Option Char → List Char → Bool
  | prev, s =>
    rmatch r (fun _ _ => true) prev s ||
      match s with
      | [] => false
      | c :: rest => rsearchAux r (some c) rest

def rsearch (r : Rx) (t : String) : Bool := rsearchAux r none t.data

def strRx (s : String) : Rx := s.data.foldr (fun c r => Rx.seq (.lit c) r) .eps

def catRx (l : List Rx) : Rx := l.foldr .seq .eps

/-- `\bword\b`. -/
def wordRx (s : String) : Rx := Rx.seq .wb (Rx.seq (strRx s) .wb)

/-- `\bw1\s+w2\s+...\s+wn\b`. -/
def phraseRx (l : List String) : Rx :=
  Rx.seq .wb (Rx.seq (catRx (List.intersperse Rx.ws (l.map strRx))) .wb)

/-! ### Language detection (`is_spanish`) -/

def spanish_markers : List String :=
  ["¿", "¡", "qué", "como", "cómo", "cuánto", "cuanto", "dónde", "para qué",
   "para que", "tarjeta", "mexicana", "donar", "donación", "pago", "ayudar",
   "compartir", "deducible"]

/-- `is_spanish(text)`: lowercase the text and test whether any marker
occurs as a substring (`any(w in t for w in spanish_markers)`). -/
def is_spanish (text : String) : Bool :=
  spanish_markers.any fun w => containsSub (pyLower text).data w.data

/-! ### FAQ router (`faq_router`) -/

/-- The env-derived template values substituted into the canned replies.
`DEADLINE_HUMAN` is the human-readable form produced from `DEADLINE` by
`fmt_deadline` at startup. -/
structure Config where
  FUNDRAISER_URL : String
  GOAL_USD : String
  DEADLINE_HUMAN : String

def p_money_for : List Rx :=
  [phraseRx ["what", "is", "the", "money", "for"],
   phraseRx ["what", "is", "it", "for"],
   wordRx "purpose",
   phraseRx ["para", "qué", "es", "el", "dinero"],
   phraseRx ["para", "que", "es", "el", "dinero"],
   phraseRx ["para", "qué", "es"]]

def p_amount : List Rx :=
  [phraseRx ["how", "much", "should", "i", "donate"],
   phraseRx ["how", "much"],
   wordRx "amount",
   wordRx "minimum",
   catRx [.wb, strRx "cu", .cls ['a', 'á'], strRx "nto", .ws,
          .alt (strRx "debo") (strRx "puedo"), .ws, strRx "donar", .wb],
   wordRx "monto"]

def p_mex_card : List Rx :=
  [phraseRx ["mexican", "card"],
   phraseRx ["mexico", "card"],
   phraseRx ["works", "in", "mexico"],
   phraseRx ["tarjeta", "mexicana"],
   catRx [.wb, strRx "funciona", .ws, strRx "en", .ws, strRx "m",
          .cls ['e', 'é'], strRx "xico", .wb],
   phraseRx ["acepta", "tarjeta"]]

def p_about_andree : List Rx :=
  [phraseRx ["who", "is", "andree"],
   phraseRx ["tell", "me", "about", "andree"],
   phraseRx ["acerca", "de", "andree"],
   catRx [.wb, strRx "qu", .cls ['i', 'é'], strRx "n", .ws, strRx "es",
          .ws, strRx "andree", .wb]]

def p_tax : List Rx :=
  [phraseRx ["tax", "deductible"],
   wordRx "tax",
   wordRx "receipt",
   wordRx "deducible",
   wordRx "recibo",
   wordRx "factura"]

def p_deadline : List Rx :=
  [wordRx "deadline",
   phraseRx ["when", "does", "it", "end"],
   phraseRx ["by", "when"],
   wordRx "goal",
   wordRx "meta",
   catRx [.wb, strRx "fecha", .ws, strRx "l", .cls ['i', 'í'], strRx "mite", .wb],
   catRx [.wb, strRx "cu", .cls ['a', 'á'], strRx "ndo", .ws, strRx "termina", .wb]]

def p_how_donate : List Rx :=
  [phraseRx ["how", "do", "i", "donate"],
   wordRx "donate",
   wordRx "donation",
   wordRx "link",
   catRx [.wb, strRx "c", .cls ['ó', 'o'], strRx "mo", .ws, strRx "donar", .wb],
   wordRx "enlace",
   catRx [.wb, strRx "donaci", .cls ['o', 'ó'], strRx "n", .wb]]

def p_share : List Rx :=
  [phraseRx ["can", "i", "share"],
   wordRx "share",
   phraseRx ["puedo", "compartir"],
   wordRx "compartir"]

def p_thanks : List Rx :=
  [wordRx "thanks", phraseRx ["thank", "you"], wordRx "gracias"]

def p_greeting : List Rx :=
  [wordRx "hi", wordRx "hello", wordRx "hey",
   catRx [.wb, strRx "hol", .cls ['a', 'o'], .wb],
   wordRx "buenas"]

/-- `m(patts)` from the source: `any(re.search(p, txt) for p in patts)`. -/
def m (patts : List Rx) (txt : String) : Bool := patts.any fun p => rsearch p txt

/-! The canned replies, verbatim from the source; each category returns its
English template unless `es` (`X if not es else Y`). -/

def reply_money_for (cfg : Config) (es : Bool) : String :=
  if es then
    "Fondo para la banda de Martin HS (instrumentos, uniformes, viajes). Dona: " ++ cfg.FUNDRAISER_URL
  else
    "Funds help Martin HS band (instruments, uniforms, travel). Donate: " ++ cfg.FUNDRAISER_URL

def reply_amount (cfg : Config) (es : Bool) : String :=
  if es then "¡Todo ayuda! $3–$5 suma. Dona: " ++ cfg.FUNDRAISER_URL
  else "Every bit helps—$3–$5 adds up. Donate: " ++ cfg.FUNDRAISER_URL

def reply_mex_card (cfg : Config) (es : Bool) : String :=
  if es then "Sí—funcionan tarjetas de México. Prueba: " ++ cfg.FUNDRAISER_URL
  else "Yes—most cards incl. Mexico work. Try: " ++ cfg.FUNDRAISER_URL

def reply_about_andree (cfg : Config) (es : Bool) : String :=
  if es then "Andree cursa 2º en Martin HS y toca corno. Apoya: " ++ cfg.FUNDRAISER_URL
  else "Andree is a Martin HS sophomore, French horn. Support: " ++ cfg.FUNDRAISER_URL

def reply_tax (es : Bool) : String :=
  if es then "Recibirás recibo por email. El tratamiento fiscal varía; consulta a tu asesor."
  else "You’ll get an email receipt. Tax treatment varies; ask your tax advisor."

def reply_deadline_goal (cfg : Config) (es : Bool) : String :=
  if es then
    "Meta $" ++ cfg.GOAL_USD ++ ". Dona antes del " ++ cfg.DEADLINE_HUMAN ++ ": " ++ cfg.FUNDRAISER_URL
  else
    "Goal $" ++ cfg.GOAL_USD ++ ". Please donate by " ++ cfg.DEADLINE_HUMAN ++ ": " ++ cfg.FUNDRAISER_URL

def reply_deadline_plain (cfg : Config) (es : Bool) : String :=
  if es then "Dona cuando puedas: " ++ cfg.FUNDRAISER_URL
  else "Please donate when you can: " ++ cfg.FUNDRAISER_URL

def reply_how_donate (cfg : Config) (es : Bool) : String :=
  if es then "Abre el enlace y dona: " ++ cfg.FUNDRAISER_URL
  else "Tap to donate any amount: " ++ cfg.FUNDRAISER_URL

def reply_share (cfg : Config) (es : Bool) : String :=
  if es then "Sí, por favor comparte el enlace: " ++ cfg.FUNDRAISER_URL
  else "Yes, please share the link: " ++ cfg.FUNDRAISER_URL

def reply_thanks (es : Bool) : String :=
  if es then "¡Gracias! 🎺" else "Thank you! 🎺"

def reply_greeting (cfg : Config) (es : Bool) : String :=
  if es then "¡Hola! Apoyamos la banda de Martin HS. Dona: " ++ cfg.FUNDRAISER_URL
  else "Hi! Supporting Martin HS band. Donate: " ++ cfg.FUNDRAISER_URL

/-- `faq_router(user_text, sms)`: normalize the text, detect the language,
then walk the category ladder in source order and return the first matching
category's canned reply (English unless `es`); `None` when nothing matches
or when `sms` is false. -/
def faq_router (cfg : Config) (user_text : String) (sms : Bool) : Option String :=
  let txt := pyLower (pyStrip user_text)
  let es := is_spanish txt
  if sms then
    if m p_money_for txt then some (reply_money_for cfg es)
    else if m p_amount txt then some (reply_amount cfg es)
    else if m p_mex_card txt then some (reply_mex_card cfg es)
    else if m p_about_andree txt then some (reply_about_andree cfg es)
    else if m p_tax txt then some (reply_tax es)
    else if m p_deadline txt then
      if cfg.DEADLINE_HUMAN ≠ "" ∧ cfg.GOAL_USD ≠ "" then
        some (reply_deadline_goal cfg es)
      else
        some (reply_deadline_plain cfg es)
    else if m p_how_donate txt then some (reply_how_donate cfg es)
    else if m p_share txt then some (reply_share cfg es)
    else if m p_thanks txt then some (reply_thanks es)
    else if m p_greeting txt then some (reply_greeting cfg es)
    else none
  else none

/-! ### OpenAI call (`ask_openai`)

The provider is abstracted as a function from (model, attempt number) to a
categorized response, mirroring the exception classes the source handles:
`RateLimitError` / `APITimeoutError` (transient), `APIError`
(non-transient), any other exception (also non-transient). An `ok` carries
the raw `resp.output_text`; the source strips it and raises `APIError` when
the stripped text is empty. -/

def PRIMARY_MODEL : String := "gpt-5"

def FALLBACK_MODEL : String := "gpt-5-mini"

inductive ApiResp
  | ok (text : String)
  | rateLimited
  | timeout
  | apiError
  | otherError

/-- Observable events of one `ask_openai` run: each attempt logged at the
top of the loop body, and each backoff sleep. -/
inductive AskEvent
  | tried (model : String) (attempt : Nat)
  | slept (d : ℚ)
deriving DecidableEq

/-- `backoff = min(8.0, 1.5 ** attempt)`. -/
def backoff (attempt : Nat) : ℚ := min 8 ((3 / 2 : ℚ) ^ attempt)

/-- The inner `for attempt in range(1, max_retries + 1)` loop of
`ask_openai` for one model: returns the stripped reply text on success
(`none` = this model is done without success, by `break` or by exhausting
its attempts) together with the run's events. A transient error sleeps
`backoff attempt` and retries; an empty stripped text raises `APIError`,
which — like any other `APIError` or unexpected exception — breaks out of
the attempt loop. -/
def tryModel (provider : String → Nat → ApiResp) (model : String) :
    Nat → Nat → Option String × List AskEvent
  | _, 0 => (none, [])
  | attempt, rem + 1 =>
    match provider model attempt with
    | .ok t =>
      let text := pyStrip t
      if text = "" then (none, [.tried model attempt])
      else (some text, [.tried model attempt])
    | .rateLimited =>
      let rest := tryModel provider model (attempt + 1) rem
      (rest.1, .tried model attempt :: .slept (backoff attempt) :: rest.2)
    | .timeout =>
      let rest := tryModel provider model (attempt + 1) rem
      (rest.1, .tried model attempt :: .slept (backoff attempt) :: rest.2)
    | .apiError => (none, [.tried model attempt])
    | .otherError => (none, [.tried model attempt])

/-- `ask_openai(prompt, max_retries=2)`: try `PRIMARY_MODEL` then
`FALLBACK_MODEL`, each under `tryModel`; if neither succeeds, re-raise the
last error (modelled as `Except.error ()`). -/
def ask_openai (provider : String → Nat → ApiResp) (max_retries : Nat := 2) :
    Except Unit String × List AskEvent :=
  let r1 := tryModel provider PRIMARY_MODEL 1 max_retries
  match r1.1 with
  | some t => (.ok t, r1.2)
  | none =>
    let r2 := tryModel provider FALLBACK_MODEL 1 max_retries
    match r2.1 with
    | some t => (.ok t, r1.2 ++ r2.2)
    | none => (.error (), r1.2 ++ r2.2)

/-! ### Webhook pipeline (`imessage_webhook`)

The Flask handler for a successfully parsed JSON payload, with the
extracted `sender` and `text` strings (absent fields become `""`), the
result of the `ask_openai` call abstracted as a parameter, and the guard
maps threaded explicitly. The HTTP response is `("ok", 204)` in every
branch modelled here. -/

inductive Outcome
  | emptyAck
  | vipExcluded
  | guardSuppressed
  | faqAnswered
  | generatedAnswered
  | generationFailed
deriving DecidableEq

structure WebhookResult where
  outcome : Outcome
  inboundLogged : Bool
  sendAttempt : Option (String × String)
  status : Nat
  st : GuardState

/-- `if len(answer) > 500: answer = answer[:497] + "..."`. -/
def truncate500 (answer : String) : String :=
  if answer.length > 500 then String.mk (answer.data.take 497) ++ "..." else answer

def imessage_webhook (vip : List String) (Wr Wd : ℚ) (cfg : Config) (now : ℚ)
    (sender text : String) (ask : Except Unit String) (st : GuardState) :
    WebhookResult :=
  if sender = "" ∨ text = "" then
    { outcome := .emptyAck, inboundLogged := false, sendAttempt := none,
      status := 204, st := st }
  else if sender ∈ vip then
    { outcome := .vipExcluded, inboundLogged := true, sendAttempt := none,
      status := 204, st := st }
  else
    let r1 := too_soon Wr now sender st
    if r1.1 then
      { outcome := .guardSuppressed, inboundLogged := true, sendAttempt := none,
        status := 204, st := r1.2 }
    else
      let r2 := is_duplicate Wd now sender text r1.2
      if r2.1 then
        { outcome := .guardSuppressed, inboundLogged := true, sendAttempt := none,
          status := 204, st := r2.2 }
      else
        match faq_router cfg text true with
        | some canned =>
          { outcome := .faqAnswered, inboundLogged := true,
            sendAttempt := some (sender, canned), status := 204, st := r2.2 }
        | none =>
          match ask with
          | .ok answer =>
            { outcome := .generatedAnswered, inboundLogged := true,
              sendAttempt := some (sender, truncate500 answer), status := 204,
              st := r2.2 }
          | .error _ =>
            { outcome := .generationFailed, inboundLogged := true,
              sendAttempt := none, status := 204, st := r2.2 }

/-! ### Bulk send (`bulk_send` and its row helpers) -/

/-- One CSV row as `csv.DictReader` yields it: `none` = column absent. -/
structure Row where
  phoneE164 : Option String
  phone : Option String
  greetingName : Option String
  firstNameCol : Option String
  nameCol : Option String
  languageCap : Option String
  languageLow : Option String
  country : Option String

/-- Python `a or b` on optional strings (`None` and `""` are falsy),
collapsed to a string with `""` for a falsy result. -/
def pyOr (a b : Option String) : String :=
  match a with
  | some s => if s = "" then b.getD "" else s
  | none => b.getD ""

/-- `first_name(row)`:
`(row.get("GreetingName") or row.get("FirstName") or row.get("Name") or
"friend").strip()`. -/
def first_name (r : Row) : String :=
  pyStrip (pyOr r.greetingName (some (pyOr r.firstNameCol (some (pyOr r.nameCol (some "friend"))))))

def pyUpper (s : String) : String := String.mk (s.data.map Char.toUpper)

/-- `detect_lang_row(row)`: explicit language token first, then
`Country == "MX"`, else `"EN"`. -/
def detect_lang_row (r : Row) : String :=
  let raw := pyLower (pyStrip (pyOr r.languageCap r.languageLow))
  if raw ∈ ["es", "es-mx", "spanish", "español"] then "ES"
  else if raw ∈ ["en", "en-us", "english"] then "EN"
  else if pyUpper (pyStrip (r.country.getD "")) = "MX" then "ES" else "EN"

def BODY_EN (name : String) : String :=
  "Hi " ++ name ++ " 👋 It’s Luis Carlos.\n" ++
  "We’re raising funds for the Martin HS Band 🎺.\n" ++
  "Can I send you the secure donation link?"

def BODY_ES (name : String) : String :=
  "Hola " ++ name ++ " 👋 Soy Luis Carlos.\n" ++
  "Estamos recaudando fondos para la banda de Martin HS 🎺.\n" ++
  "¿Te puedo enviar el enlace de donación?"

inductive BulkEvent
  | skippedNoPhone (i : Nat)
  | wouldSend (i : Nat) (phone text : String)
  | sent (i : Nat) (phone text : String)
deriving DecidableEq

/-- The body of `bulk_send`'s `for i in range(start, end)` loop, iterating
on the remaining count. `sendFails phone` abstracts whether
`send_imessage(phone, ...)` raises. The source's `except` handler executes
`print(..., file=sys.stderr)`, but the module never imports `sys`, so the
handler itself raises `NameError: name 'sys' is not defined`, which
propagates and aborts the whole loop: modelled by returning
`some errorMessage` as the second component. -/
def bulkLoop (rows : List Row) (dry_run : Bool) (sendFails : String → Bool) :
    Nat → Nat → List BulkEvent × Option String
  | _, 0 => ([], none)
  | i, rem + 1 =>
    match rows.get? i with
    | none => ([], none)
    | some row =>
      let phone := pyOr row.phoneE164 row.phone
      if phone = "" then
        let rest := bulkLoop rows dry_run sendFails (i + 1) rem
        (.skippedNoPhone i :: rest.1, rest.2)
      else
        let name := first_name row
        let lang := detect_lang_row row
        let text := if lang = "ES" then BODY_ES name else BODY_EN name
        if dry_run then
          let rest := bulkLoop rows dry_run sendFails (i + 1) rem
          (.wouldSend i phone text :: rest.1, rest.2)
        else if sendFails phone then
          ([], some "NameError: name 'sys' is not defined")
        else
          let rest := bulkLoop rows dry_run sendFails (i + 1) rem
          (.sent i phone text :: rest.1, rest.2)

/-- `bulk_send(csv_file, start_from, limit, dry_run, image_url)` over the
already-parsed rows: `start = max(start_from, 0)`,
`end = len(rows) if limit is None else min(len(rows), start + limit)`. -/
def bulk_send (rows : List Row) (start_from : Int) (limit : Option Int)
    (dry_run : Bool) (sendFails : String → Bool) :
    List BulkEvent × Option String :=
  let start := (max start_from 0).toNat
  let stop :=
    match limit with
    | none => rows.length
    | some l => min rows.length ((start : Int) + l).toNat
  bulkLoop rows dry_run sendFails start (stop - start)

/-! ### Auxiliary definitions used by the theorems -/

/-- The default env configuration (`FUNDRAISER_URL`, `GOAL_USD`, empty
`DEADLINE`). -/
def defaultConfig : Config := ⟨"https://bit.ly/AndreeBand", "1000", ""⟩

/-- The router's fixed category list, in source order, pairing each
category's patterns with the reply it emits (given the detected language
and the configured template values). -/
def faqCategories (cfg : Config) (es : Bool) : List (List Rx × String) :=
  [(p_money_for, reply_money_for cfg es),
   (p_amount, reply_amount cfg es),
   (p_mex_card, reply_mex_card cfg es),
   (p_about_andree, reply_about_andree cfg es),
   (p_tax, reply_tax es),
   (p_deadline,
     if cfg.DEADLINE_HUMAN ≠ "" ∧ cfg.GOAL_USD ≠ "" then reply_deadline_goal cfg es
     else reply_deadline_plain cfg es),
   (p_how_donate, reply_how_donate cfg es),
   (p_share, reply_share cfg es),
   (p_thanks, reply_thanks es),
   (p_greeting, reply_greeting cfg es)]

/-- First-match-wins evaluation of an ordered category list: the
specification's reading of the FAQ matcher. -/
def firstMatch : List (List Rx × String) → String → Option String
  | [], _ => none
  | c :: rest, txt => if m c.1 txt then some c.2 else firstMatch rest txt

/-- Run `is_duplicate` over a trace of (time, sender, text) calls,
collecting the returned booleans. -/
def dupRun (W : ℚ) (st : GuardState) : List (ℚ × String × String) → List Bool
  | [] => []
  | (t, p, x) :: evs =>
    let r := is_duplicate W t p x st
    r.1 :: dupRun W r.2 evs

/-- Claim C6 as stated, formalized over a call trace starting from a fresh
process: the duplicate check of call `i` returns true exactly when some
earlier call of the trace came from the same sender with an
identically-normalizing text within the duplicate window `W`. -/
def dupClaimOnTrace (W : ℚ) (evs : List (ℚ × String × String)) : Prop :=
  ∀ i < evs.length,
    ((dupRun W initState evs).getD i false = true ↔
      ∃ j < i,
        (evs.getD j (0, "", "")).2.1 = (evs.getD i (0, "", "")).2.1 ∧
        normText (evs.getD j (0, "", "")).2.2 = normText (evs.getD i (0, "", "")).2.2 ∧
        (evs.getD i (0, "", "")).1 - (evs.getD j (0, "", "")).1 < W)

/-- Same sender sends "hi" at t=100 (accepted), "HI " at t=105 (suppressed
duplicate), "hi" again at t=112 — 7 seconds after the previous send, inside
the 10-second window. -/
def cxTrace : List (ℚ × String × String) :=
  [(100, "+15550001111", "hi"), (105, "+15550001111", "HI "), (112, "+15550001111", "hi")]

/-- A guard state in which sender +15550001111 was last seen at t=10 and
the duplicate map is empty. -/
def cxState : GuardState :=
  { lastSeenTs := fun p => if p = "+15550001111" then 10 else 0,
    lastSeenMsg := fun _ => 0 }

/-- A CSV row whose phone is the VIP-excluded number +12145550123. -/
def vipRow : Row :=
  { phoneE164 := some "+12145550123", phone := none, greetingName := some "Ana",
    firstNameCol := none, nameCol := none, languageCap := none,
    languageLow := none, country := none }

def bulkRow1 : Row :=
  { phoneE164 := some "+15550000001", phone := none, greetingName := none,
    firstNameCol := none, nameCol := none, languageCap := none,
    languageLow := none, country := none }

def bulkRow2 : Row :=
  { phoneE164 := some "+15550000002", phone := none, greetingName := none,
    firstNameCol := none, nameCol := none, languageCap := none,
    languageLow := none, country := none }

/-- A provider whose primary model returns an empty text on attempt 1 and a
non-empty text on attempt 2, while the fallback model always fails with a
non-transient API error. -/
def emptyThenOkProvider : String → Nat → ApiResp := fun model attempt =>
  if model = PRIMARY_MODEL then
    (if attempt = 1 then .ok "" else .ok "recovered")
  else .apiError

/-- A provider that always reports a rate limit. -/
def rateLimitedProvider : String → Nat → ApiResp := fun _ _ => .rateLimited

/-- A provider whose primary model is rate-limited on attempt 1 and times
out on attempt 2, while the fallback model succeeds. -/
def transientThenOkProvider : String → Nat → ApiResp := fun model attempt =>
  if model = PRIMARY_MODEL then
    (if attempt = 1 then .rateLimited else .timeout)
  else .ok "Done!"

/-! ### Helper lemmas -/

theorem too_soon_eq_true {W now : ℚ} {p : String} {st : GuardState}
    (h : now - st.lastSeenTs p < W) : too_soon W now p st = (true, st) := by
  simp [too_soon, h]

theorem too_soon_eq_false {W now : ℚ} {p : String} {st : GuardState}
    (h : ¬ now - st.lastSeenTs p < W) :
    too_soon W now p st =
      (false,
        { st with lastSeenTs := fun q => if q = p then now else st.lastSeenTs q }) := by
  simp [too_soon, h]

theorem is_duplicate_eq_true {W now : ℚ} {p x : String} {st : GuardState}
    (h : now - st.lastSeenMsg (p, normText x) < W) :
    is_duplicate W now p x st = (true, st) := by
  simp [is_duplicate, h]

theorem is_duplicate_eq_false {W now : ℚ} {p x : String} {st : GuardState}
    (h : ¬ now - st.lastSeenMsg (p, normText x) < W) :
    is_duplicate W now p x st =
      (false,
        { st with lastSeenMsg := fun k => if k = (p, normText x) then now else st.lastSeenMsg k }) := by
  simp [is_duplicate, h]

/-- Every attempt round of `tryModel` logs trying (model, attempt) as its
first event. -/
theorem tryModel_events_cons (provider : String → Nat → ApiResp) (model : String)
    (attempt rem : Nat) :
    ∃ tl, (tryModel provider model attempt (rem + 1)).2 = .tried model attempt :: tl := by
  cases h : provider model attempt <;> simp [tryModel, h]
  case ok t => by_cases ht : pyStrip t = "" <;> simp [ht]

/-! ### Claim theorems -/

/-- C5: a sender with no prior record is never rate-limited on its first
call (provided the clock is past the window, as a real epoch clock always
is); a second call within the window returns true and leaves the state
unchanged; a third call once the window has elapsed since the first
accepted call returns false; and the guard records the current time as
last-seen exactly when it returns false. -/
theorem too_soon_spec (W t1 t2 t3 : ℚ) (s : String) (st0 : GuardState)
    (hfresh : st0.lastSeenTs s = 0) (h1 : W ≤ t1) (h2 : t2 - t1 < W)
    (h3 : W ≤ t3 - t1) :
    (too_soon W t1 s st0).1 = false ∧
    ((too_soon W t1 s st0).2).lastSeenTs s = t1 ∧
    (too_soon W t2 s (too_soon W t1 s st0).2).1 = true ∧
    (too_soon W t2 s (too_soon W t1 s st0).2).2 = (too_soon W t1 s st0).2 ∧
    (too_soon W t3 s (too_soon W t1 s st0).2).1 = false ∧
    ∀ (st : GuardState) (t : ℚ) (p : String),
      (too_soon W t p st).1 = true → (too_soon W t p st).2 = st := by
  have hc1 : ¬ (t1 - st0.lastSeenTs s < W) := by
    rw [hfresh, sub_zero]; exact not_lt.mpr h1
  have e1 := too_soon_eq_false hc1
  have hts : ((too_soon W t1 s st0).2).lastSeenTs s = t1 := by rw [e1]; simp
  have hc2 : t2 - ((too_soon W t1 s st0).2).lastSeenTs s < W := by rw [hts]; exact h2
  have e2 := too_soon_eq_true hc2
  have hc3 : ¬ (t3 - ((too_soon W t1 s st0).2).lastSeenTs s < W) := by
    rw [hts]; exact not_lt.mpr h3
  refine ⟨by rw [e1], hts, by rw [e2], by rw [e2], ?_, ?_⟩
  · rw [too_soon_eq_false hc3]
  · intro st t p h
    by_cases hc : t - st.lastSeenTs p < W
    · rw [too_soon_eq_true hc]
    · rw [too_soon_eq_false hc] at h; simp at h

/-- Witness for C5 at window 5 and call times 100, 103, 105. -/
theorem too_soon_spec_witness :
    (too_soon 5 100 "+15550001111" initState).1 = false ∧
    ((too_soon 5 100 "+15550001111" initState).2).lastSeenTs "+15550001111" = 100 ∧
    (too_soon 5 103 "+15550001111" (too_soon 5 100 "+15550001111" initState).2).1 = true ∧
    (too_soon 5 103 "+15550001111" (too_soon 5 100 "+15550001111" initState).2).2 =
      (too_soon 5 100 "+15550001111" initState).2 ∧
    (too_soon 5 105 "+15550001111" (too_soon 5 100 "+15550001111" initState).2).1 = false ∧
    ∀ (st : GuardState) (t : ℚ) (p : String),
      (too_soon 5 t p st).1 = true → (too_soon 5 t p st).2 = st :=
  too_soon_spec 5 100 103 105 "+15550001111" initState rfl (by norm_num)
    (by norm_num) (by norm_num)

/-- C6 (amended): the duplicate check keys on the trim-and-lowercase
normalization of the text; it returns true exactly when the recorded
timestamp of that normalized key (the last call at which the check
returned false, `0` for a fresh key) is within the window; it leaves the
state unchanged when it returns true and records the current time under
the key (touching no other key) when it returns false. -/
theorem is_duplicate_amended (W now : ℚ) (p x : String) (st : GuardState) :
    ((is_duplicate W now p x st).1 = true ↔
      now - st.lastSeenMsg (p, normText x) < W) ∧
    ((is_duplicate W now p x st).1 = true → (is_duplicate W now p x st).2 = st) ∧
    ((is_duplicate W now p x st).1 = false →
      ((is_duplicate W now p x st).2).lastSeenMsg (p, normText x) = now ∧
      ∀ k : String × String, k ≠ (p, normText x) →
        ((is_duplicate W now p x st).2).lastSeenMsg k = st.lastSeenMsg k) ∧
    (∀ y : String, normText y = normText x →
      is_duplicate W now p y st = is_duplicate W now p x st) := by
  by_cases hc : now - st.lastSeenMsg (p, normText x) < W
  · rw [is_duplicate_eq_true hc]
    refine ⟨by simp [hc], by simp, by simp, ?_⟩
    intro y hy
    simp only [is_duplicate, hy]
    rw [if_pos hc]
  · rw [is_duplicate_eq_false hc]
    refine ⟨by simp [hc], by simp, ?_, ?_⟩
    · intro _
      refine ⟨by simp, ?_⟩
      intro k hk
      simp [hk]
    · intro y hy
      simp only [is_duplicate, hy]
      rw [if_neg hc]

/-- Witness for C6 (amended) at window 10, time 100, a fresh state and the
whitespace/case variant "Hi " of "hi". -/
theorem is_duplicate_amended_witness :
    (is_duplicate 10 100 "+15550001111" "Hi " initState).1 = false ∧
    ((is_duplicate 10 100 "+15550001111" "Hi " initState).2).lastSeenMsg
      ("+15550001111", normText "Hi ") = 100 ∧
    is_duplicate 10 100 "+15550001111" "Hi " initState =
      is_duplicate 10 100 "+15550001111" "hi" initState := by
  have h := is_duplicate_amended 10 100 "+15550001111" "Hi " initState
  have hne : ¬ (is_duplicate 10 100 "+15550001111" "Hi " initState).1 = true := by
    rw [h.1]; norm_num [initState]
  have hfalse : (is_duplicate 10 100 "+15550001111" "Hi " initState).1 = false := by
    simpa using hne
  refine ⟨hfalse, (h.2.2.1 hfalse).1, ?_⟩
  exact (is_duplicate_amended 10 100 "+15550001111" "hi" initState).2.2.2
    "Hi " (by decide)

/-- Evaluation of the duplicate check over `cxTrace`: the third call
returns false. -/
theorem dupRun_cxTrace : dupRun 10 initState cxTrace = [false, true, false] := by
  have hn1 : normText "hi" = "hi" := by decide
  have hn2 : normText "HI " = "hi" := by decide
  norm_num [dupRun, cxTrace, is_duplicate, initState, hn1, hn2]

/-- Counterexample to C6 as stated: on `cxTrace` the third call (t=112)
returns false even though the same sender sent an identically-normalizing
text at t=105, within the 10-second window — a suppressed duplicate does
not refresh the recorded timestamp. -/
theorem is_duplicate_counterexample : ¬ dupClaimOnTrace 10 cxTrace := by
  intro h
  have h2 := (h 2 (by norm_num [cxTrace])).mpr
    ⟨1, by norm_num, rfl, by decide, by norm_num [cxTrace]⟩
  rw [dupRun_cxTrace] at h2
  simp at h2

/-- C10: with `sms=False` every branch of the FAQ ladder is skipped and the
router returns `None` for every text and configuration. -/
theorem faq_router_non_sms (cfg : Config) (t : String) :
    faq_router cfg t false = none := rfl

/-- C1 (amended): the webhook reply pipeline never produces an outbound
send for a sender in the VIP exclusion set — the handler acknowledges the
event, logs the inbound row, and leaves the guard state untouched. (The
bulk-send loop, by contrast, applies no VIP filter; see the
counterexample.) -/
theorem webhook_vip_no_send (vip : List String) (Wr Wd : ℚ) (cfg : Config)
    (now : ℚ) (sender text : String) (ask : Except Unit String) (st : GuardState)
    (hs : sender ≠ "") (ht : text ≠ "") (hvip : sender ∈ vip) :
    (imessage_webhook vip Wr Wd cfg now sender text ask st).sendAttempt = none ∧
    (imessage_webhook vip Wr Wd cfg now sender text ask st).outcome = .vipExcluded ∧
    (imessage_webhook vip Wr Wd cfg now sender text ask st).inboundLogged = true ∧
    (imessage_webhook vip Wr Wd cfg now sender text ask st).st = st := by
  have hcond : ¬ (sender = "" ∨ text = "") := by simp [hs, ht]
  simp [imessage_webhook, hcond, hvip]

/-- Witness for C1 (amended): a VIP sender's webhook event produces no
send attempt. -/
theorem webhook_vip_no_send_witness :
    (imessage_webhook ["+12145550123"] 5 10 defaultConfig 100 "+12145550123" "hi"
      (.error ()) initState).sendAttempt = none ∧
    (imessage_webhook ["+12145550123"] 5 10 defaultConfig 100 "+12145550123" "hi"
      (.error ()) initState).outcome = .vipExcluded ∧
    (imessage_webhook ["+12145550123"] 5 10 defaultConfig 100 "+12145550123" "hi"
      (.error ()) initState).inboundLogged = true ∧
    (imessage_webhook ["+12145550123"] 5 10 defaultConfig 100 "+12145550123" "hi"
      (.error ()) initState).st = initState :=
  webhook_vip_no_send ["+12145550123"] 5 10 defaultConfig 100 "+12145550123" "hi"
    (.error ()) initState (by decide) (by decide) (by simp)

/-- Counterexample to C1 as stated: the bulk-send loop sends the outreach
message to +12145550123 even though that number is in the configured VIP
exclusion set — `bulk_send` never consults the VIP set. -/
theorem bulk_send_vip_counterexample :
    "+12145550123" ∈ ["+12145550123"] ∧
    (bulk_send [vipRow] 0 none false (fun _ => false)).1 =
      [.sent 0 "+12145550123" (BODY_EN "Ana")] := by
  refine ⟨by simp, by decide⟩

/-- C2 (amended): for a non-VIP, non-empty event the rate check runs first;
when it signals suppression the event is suppressed with no reply — but the
duplicate check is short-circuited, so the duplicate map is left untouched;
the duplicate check runs (and its result decides suppression) only when the
rate check returns false. The inbound row is logged in both suppressed
branches. -/
theorem webhook_guard_order (vip : List String) (Wr Wd : ℚ) (cfg : Config)
    (now : ℚ) (sender text : String) (ask : Except Unit String) (st : GuardState)
    (hs : sender ≠ "") (ht : text ≠ "") (hvip : sender ∉ vip) :
    ((too_soon Wr now sender st).1 = true →
      imessage_webhook vip Wr Wd cfg now sender text ask st =
        { outcome := .guardSuppressed, inboundLogged := true, sendAttempt := none,
          status := 204, st := (too_soon Wr now sender st).2 } ∧
      ((imessage_webhook vip Wr Wd cfg now sender text ask st).st).lastSeenMsg =
        st.lastSeenMsg) ∧
    ((too_soon Wr now sender st).1 = false →
      (is_duplicate Wd now sender text (too_soon Wr now sender st).2).1 = true →
      imessage_webhook vip Wr Wd cfg now sender text ask st =
        { outcome := .guardSuppressed, inboundLogged := true, sendAttempt := none,
          status := 204,
          st := (is_duplicate Wd now sender text (too_soon Wr now sender st).2).2 }) := by
  have hcond : ¬ (sender = "" ∨ text = "") := by simp [hs, ht]
  constructor
  · intro h1
    have hst : (too_soon Wr now sender st).2 = st := by
      by_cases hc : now - st.lastSeenTs sender < Wr
      · rw [too_soon_eq_true hc]
      · rw [too_soon_eq_false hc] at h1; simp at h1
    refine ⟨by simp [imessage_webhook, hcond, hvip, h1], ?_⟩
    simp [imessage_webhook, hcond, hvip, h1, hst]
  · intro h1 h2
    simp [imessage_webhook, hcond, hvip, h1, h2]

/-- Witness for C2 (amended): with sender last seen at t=10 and the event
at t=12 (window 5), the rate check fires and the event is suppressed with
the duplicate map untouched. -/
theorem webhook_guard_order_witness :
    imessage_webhook ["+12145550123"] 5 10 defaultConfig 12 "+15550001111" "hi"
        (.error ()) cxState =
      { outcome := .guardSuppressed, inboundLogged := true, sendAttempt := none,
        status := 204, st := (too_soon 5 12 "+15550001111" cxState).2 } ∧
    ((imessage_webhook ["+12145550123"] 5 10 defaultConfig 12 "+15550001111" "hi"
        (.error ()) cxState).st).lastSeenMsg = cxState.lastSeenMsg :=
  (webhook_guard_order ["+12145550123"] 5 10 defaultConfig 12 "+15550001111" "hi"
    (.error ()) cxState (by decide) (by decide) (by decide)).1
    (by rw [too_soon_eq_true (by norm_num [cxState])])

/-- Counterexample to C2 as stated: when the rate check suppresses the
event at t=12, the duplicate map entry for the message is NOT updated (it
still holds 0, not the event time), contradicting "the duplicate map is
consulted and updated even when the rate check signals suppression". -/
theorem webhook_rate_skips_dup_counterexample :
    (imessage_webhook ["+12145550123"] 5 10 defaultConfig 12 "+15550001111" "hi"
      (.error ()) cxState).outcome = .guardSuppressed ∧
    ¬ ((imessage_webhook ["+12145550123"] 5 10 defaultConfig 12 "+15550001111" "hi"
      (.error ()) cxState).st).lastSeenMsg ("+15550001111", normText "hi") = 12 := by
  have hcond : ¬ (("+15550001111" : String) = "" ∨ ("hi" : String) = "") := by decide
  have hvip : ("+15550001111" : String) ∉ ["+12145550123"] := by decide
  have htoo : (too_soon 5 12 "+15550001111" cxState).1 = true := by
    rw [too_soon_eq_true (by norm_num [cxState])]
  have hst : (too_soon 5 12 "+15550001111" cxState).2 = cxState := by
    rw [too_soon_eq_true (by norm_num [cxState])]
  have key : (imessage_webhook ["+12145550123"] 5 10 defaultConfig 12 "+15550001111" "hi"
      (.error ()) cxState).st = cxState := by
    simp [imessage_webhook, hcond, hvip, htoo, hst]
  refine ⟨by simp [imessage_webhook, hcond, hvip, htoo], ?_⟩
  rw [key]
  norm_num [cxState]

/-- C9: when the generative fallback fails (all models exhausted), the
webhook sends nothing, still logs the inbound row, and acknowledges the
event with the same 204 no-content status that a successful generation
gets. -/
theorem webhook_generation_failed (vip : List String) (Wr Wd : ℚ) (cfg : Config)
    (now : ℚ) (sender text : String) (st : GuardState)
    (hs : sender ≠ "") (ht : text ≠ "") (hvip : sender ∉ vip)
    (hrate : (too_soon Wr now sender st).1 = false)
    (hdup : (is_duplicate Wd now sender text (too_soon Wr now sender st).2).1 = false)
    (hfaq : faq_router cfg text true = none) :
    (imessage_webhook vip Wr Wd cfg now sender text (.error ()) st).sendAttempt = none ∧
    (imessage_webhook vip Wr Wd cfg now sender text (.error ()) st).outcome = .generationFailed ∧
    (imessage_webhook vip Wr Wd cfg now sender text (.error ()) st).inboundLogged = true ∧
    (imessage_webhook vip Wr Wd cfg now sender text (.error ()) st).status = 204 ∧
    ∀ answer : String,
      (imessage_webhook vip Wr Wd cfg now sender text (.ok answer) st).status = 204 := by
  have hcond : ¬ (sender = "" ∨ text = "") := by simp [hs, ht]
  refine ⟨?_, ?_, ?_, ?_, ?_⟩ <;>
    simp [imessage_webhook, hcond, hvip, hrate, hdup, hfaq]

/-- Witness for C9: a fresh sender, the unmatched text "zzz" and a failing
generative call produce no send and a 204 acknowledgment. -/
theorem webhook_generation_failed_witness :
    (imessage_webhook ["+12145550123"] 5 10 defaultConfig 100 "+15550001111" "zzz"
      (.error ()) initState).sendAttempt = none ∧
    (imessage_webhook ["+12145550123"] 5 10 defaultConfig 100 "+15550001111" "zzz"
      (.error ()) initState).outcome = .generationFailed ∧
    (imessage_webhook ["+12145550123"] 5 10 defaultConfig 100 "+15550001111" "zzz"
      (.error ()) initState).inboundLogged = true ∧
    (imessage_webhook ["+12145550123"] 5 10 defaultConfig 100 "+15550001111" "zzz"
      (.error ()) initState).status = 204 ∧
    ∀ answer : String,
      (imessage_webhook ["+12145550123"] 5 10 defaultConfig 100 "+15550001111" "zzz"
        (.ok answer) initState).status = 204 := by
  have hrate : (too_soon 5 100 "+15550001111" initState).1 = false := by
    rw [too_soon_eq_false (by norm_num [initState])]
  have h2 : ((too_soon 5 100 "+15550001111" initState).2).lastSeenMsg
      ("+15550001111", normText "zzz") = 0 := by
    rw [too_soon_eq_false (by norm_num [initState])]
    rfl
  have hdup : (is_duplicate 10 100 "+15550001111" "zzz"
      (too_soon 5 100 "+15550001111" initState).2).1 = false := by
    rw [is_duplicate_eq_false (by rw [h2]; norm_num)]
  exact webhook_generation_failed ["+12145550123"] 5 10 defaultConfig 100
    "+15550001111" "zzz" initState (by decide) (by decide) (by decide)
    hrate hdup (by decide)

/-- C3 (amended): an empty generated text is raised as `APIError`, which is
handled by the non-transient branch — the model is abandoned immediately
(no second attempt on it) and the next configured model is tried. -/
theorem ask_openai_empty_abandons (provider : String → Nat → ApiResp) (w : String)
    (hp : provider PRIMARY_MODEL 1 = .ok w) (hw : pyStrip w = "") :
    ((ask_openai provider 2).2).take 2 =
      [.tried PRIMARY_MODEL 1, .tried FALLBACK_MODEL 1] := by
  have h1 : tryModel provider PRIMARY_MODEL 1 2 = (none, [.tried PRIMARY_MODEL 1]) := by
    simp [tryModel, hp, hw]
  obtain ⟨tl, htl⟩ := tryModel_events_cons provider FALLBACK_MODEL 1 1
  unfold ask_openai
  rw [h1]
  cases h2 : (tryModel provider FALLBACK_MODEL 1 2).1 <;>
    simp [h2, htl]

/-- Counterexample to C3 as stated: the primary model returns an empty text
on attempt 1 and would return "recovered" on attempt 2, yet `ask_openai`
never makes that second attempt — it abandons the primary model and fails
overall once the fallback errors. -/
theorem ask_openai_empty_counterexample :
    emptyThenOkProvider PRIMARY_MODEL 2 = .ok "recovered" ∧
    pyStrip "recovered" ≠ "" ∧
    (ask_openai emptyThenOkProvider 2).1 = .error () ∧
    (ask_openai emptyThenOkProvider 2).2 =
      [.tried PRIMARY_MODEL 1, .tried FALLBACK_MODEL 1] := by
  refine ⟨rfl, by decide, rfl, rfl⟩

/-- Witness for C3 (amended) on the concrete empty-then-ok provider. -/
theorem ask_openai_empty_abandons_witness :
    ((ask_openai emptyThenOkProvider 2).2).take 2 =
      [.tried PRIMARY_MODEL 1, .tried FALLBACK_MODEL 1] :=
  ask_openai_empty_abandons emptyThenOkProvider "" rfl (by decide)

/-- Counterexample to C4 as stated: the backoff delays are
`min(8, 1.5^attempt)` — the delay after attempt 2 (9/4) is NOT double the
delay after attempt 1 (3/2), so the base does not double per attempt. -/
theorem ask_openai_backoff_counterexample :
    (ask_openai rateLimitedProvider 2).2 =
      [.tried PRIMARY_MODEL 1, .slept (backoff 1), .tried PRIMARY_MODEL 2,
       .slept (backoff 2), .tried FALLBACK_MODEL 1, .slept (backoff 1),
       .tried FALLBACK_MODEL 2, .slept (backoff 2)] ∧
    backoff 1 = 3 / 2 ∧ backoff 2 = 9 / 4 ∧ ¬ backoff 2 = 2 * backoff 1 := by
  refine ⟨rfl, ?_, ?_, ?_⟩ <;> norm_num [backoff]

/-- C4 (amended): the primary model is tried first; transient errors
(rate-limit, timeout) retry the same model up to the fixed attempt count,
sleeping `min(8, 1.5^attempt)` between attempts (exponential with factor
1.5, capped at 8 seconds); a non-transient API error abandons the model
immediately and moves to the fallback model under the same policy; if all
models exhaust their attempts the call fails with the generation error. -/
theorem ask_openai_retry_policy :
    (∀ (provider : String → Nat → ApiResp) (rem : Nat),
      ((ask_openai provider (rem + 1)).2).head? = some (.tried PRIMARY_MODEL 1)) ∧
    (∀ (provider : String → Nat → ApiResp) (t : String),
      provider PRIMARY_MODEL 1 = .rateLimited → provider PRIMARY_MODEL 2 = .timeout →
      provider FALLBACK_MODEL 1 = .ok t → ¬ pyStrip t = "" →
      ask_openai provider 2 =
        (.ok (pyStrip t),
         [.tried PRIMARY_MODEL 1, .slept (backoff 1), .tried PRIMARY_MODEL 2,
          .slept (backoff 2), .tried FALLBACK_MODEL 1])) ∧
    (∀ (provider : String → Nat → ApiResp) (t : String),
      provider PRIMARY_MODEL 1 = .apiError → provider FALLBACK_MODEL 1 = .ok t →
      ¬ pyStrip t = "" →
      ask_openai provider 2 =
        (.ok (pyStrip t), [.tried PRIMARY_MODEL 1, .tried FALLBACK_MODEL 1])) ∧
    (∀ provider : String → Nat → ApiResp,
      (∀ mo a, provider mo a = .rateLimited ∨ provider mo a = .timeout) →
      (ask_openai provider 2).1 = .error ()) ∧
    (∀ a : Nat, backoff a ≤ 8 ∧ backoff a = min 8 ((3 / 2 : ℚ) ^ a)) := by
  refine ⟨?_, ?_, ?_, ?_, ?_⟩
  · intro provider rem
    obtain ⟨tl, htl⟩ := tryModel_events_cons provider PRIMARY_MODEL 1 rem
    unfold ask_openai
    cases h1 : (tryModel provider PRIMARY_MODEL 1 (rem + 1)).1 <;>
      cases h2 : (tryModel provider FALLBACK_MODEL 1 (rem + 1)).1 <;>
      simp [h1, h2, htl]
  · intro provider t h1 h2 h3 ht
    have e1 : tryModel provider PRIMARY_MODEL 1 2 =
        (none, [.tried PRIMARY_MODEL 1, .slept (backoff 1), .tried PRIMARY_MODEL 2,
                .slept (backoff 2)]) := by
      simp [tryModel, h1, h2]
    have e2 : tryModel provider FALLBACK_MODEL 1 2 =
        (some (pyStrip t), [.tried FALLBACK_MODEL 1]) := by
      simp [tryModel, h3, ht]
    unfold ask_openai
    rw [e1, e2]
    rfl
  · intro provider t h1 h2 ht
    have e1 : tryModel provider PRIMARY_MODEL 1 2 = (none, [.tried PRIMARY_MODEL 1]) := by
      simp [tryModel, h1]
    have e2 : tryModel provider FALLBACK_MODEL 1 2 =
        (some (pyStrip t), [.tried FALLBACK_MODEL 1]) := by
      simp [tryModel, h2, ht]
    unfold ask_openai
    rw [e1, e2]
    rfl
  · intro provider hall
    have etm : ∀ mo a, (tryModel provider mo a 2).1 = none := by
      intro mo a
      rcases hall mo a with h | h <;> rcases hall mo (a + 1) with h2 | h2 <;>
        simp [tryModel, h, h2]
    unfold ask_openai
    rw [Prod.fst]
    simp only [etm]
  · intro a
    exact ⟨min_le_left _ _, rfl⟩

/-- Witness for C4 (amended): concrete providers exercising the
transient-retry path, the exhaustion path and the cap. -/
theorem ask_openai_retry_policy_witness :
    ((ask_openai transientThenOkProvider 2).2).head? = some (.tried PRIMARY_MODEL 1) ∧
    ask_openai transientThenOkProvider 2 =
      (.ok (pyStrip "Done!"),
       [.tried PRIMARY_MODEL 1, .slept (backoff 1), .tried PRIMARY_MODEL 2,
        .slept (backoff 2), .tried FALLBACK_MODEL 1]) ∧
    (ask_openai rateLimitedProvider 2).1 = .error () ∧
    backoff 3 ≤ 8 :=
  ⟨ask_openai_retry_policy.1 transientThenOkProvider 1,
   ask_openai_retry_policy.2.1 transientThenOkProvider "Done!" rfl rfl rfl (by decide),
   ask_openai_retry_policy.2.2.2.1 rateLimitedProvider (fun _ _ => Or.inl rfl),
   (ask_openai_retry_policy.2.2.2.2 3).1⟩

/-- C7: the FAQ router equals first-match-wins evaluation of its fixed
category list in source priority order; its result depends only on the
normalized text (hence on text, detected language and configured template
values); it returns none when no category matches; and a text matching
both the thanks and greeting markers resolves to the earlier category,
thanks. -/
theorem faq_router_props :
    (∀ (cfg : Config) (t : String),
      faq_router cfg t true =
        firstMatch (faqCategories cfg (is_spanish (pyLower (pyStrip t))))
          (pyLower (pyStrip t))) ∧
    (∀ (cfg : Config) (t1 t2 : String) (sms : Bool),
      pyLower (pyStrip t1) = pyLower (pyStrip t2) →
      faq_router cfg t1 sms = faq_router cfg t2 sms) ∧
    (∀ (cfg : Config) (t : String),
      (∀ ps ∈ [p_money_for, p_amount, p_mex_card, p_about_andree, p_tax,
               p_deadline, p_how_donate, p_share, p_thanks, p_greeting],
        m ps (pyLower (pyStrip t)) = false) →
      faq_router cfg t true = none) ∧
    (∀ cfg : Config,
      m p_thanks (pyLower (pyStrip "hello thanks")) = true ∧
      m p_greeting (pyLower (pyStrip "hello thanks")) = true ∧
      faq_router cfg "hello thanks" true = some "Thank you! 🎺") := by
  refine ⟨?_, ?_, ?_, ?_⟩
  · intro cfg t
    simp only [faq_router, firstMatch, faqCategories,
      apply_ite (Option.some : String → Option String)]
    rfl
  · intro cfg t1 t2 sms h
    simp only [faq_router, h]
  · intro cfg t h
    have h1 := h p_money_for (by simp)
    have h2 := h p_amount (by simp)
    have h3 := h p_mex_card (by simp)
    have h4 := h p_about_andree (by simp)
    have h5 := h p_tax (by simp)
    have h6 := h p_deadline (by simp)
    have h7 := h p_how_donate (by simp)
    have h8 := h p_share (by simp)
    have h9 := h p_thanks (by simp)
    have h10 := h p_greeting (by simp)
    simp only [faq_router, h1, h2, h3, h4, h5, h6, h7, h8, h9, h10,
      if_true, if_false, Bool.false_eq_true, ite_false]
  · intro cfg
    have hn : pyLower (pyStrip "hello thanks") = "hello thanks" := by decide
    have e1 : m p_money_for "hello thanks" = false := by decide
    have e2 : m p_amount "hello thanks" = false := by decide
    have e3 : m p_mex_card "hello thanks" = false := by decide
    have e4 : m p_about_andree "hello thanks" = false := by decide
    have e5 : m p_tax "hello thanks" = false := by decide
    have e6 : m p_deadline "hello thanks" = false := by decide
    have e7 : m p_how_donate "hello thanks" = false := by decide
    have e8 : m p_share "hello thanks" = false := by decide
    have e9 : m p_thanks "hello thanks" = true := by decide
    have e10 : m p_greeting "hello thanks" = true := by decide
    have hes : is_spanish "hello thanks" = false := by decide
    refine ⟨by rw [hn]; exact e9, by rw [hn]; exact e10, ?_⟩
    simp only [faq_router, hn, hes, e1, e2, e3, e4, e5, e6, e7, e8, e9,
      reply_thanks, if_true, if_false, Bool.false_eq_true, ite_false, ite_true]

/-- Witness for C7 on concrete texts: the donate question, a case and
whitespace variant, an unmatched text, and the thanks/greeting overlap. -/
theorem faq_router_props_witness :
    faq_router defaultConfig "How do I donate?" true =
      firstMatch
        (faqCategories defaultConfig
          (is_spanish (pyLower (pyStrip "How do I donate?"))))
        (pyLower (pyStrip "How do I donate?")) ∧
    faq_router defaultConfig " HI tHeRe " true = faq_router defaultConfig "hi there" true ∧
    faq_router defaultConfig "zzz" true = none ∧
    faq_router defaultConfig "hello thanks" true = some "Thank you! 🎺" :=
  ⟨faq_router_props.1 defaultConfig "How do I donate?",
   faq_router_props.2.1 defaultConfig " HI tHeRe " "hi there" true (by decide),
   faq_router_props.2.2.1 defaultConfig "zzz" (by decide),
   (faq_router_props.2.2.2 defaultConfig).2.2⟩

/-- C8 (code bug): in `bulk_send`, a row whose send raises does NOT let the
loop proceed — the `except` handler's `print(..., file=sys.stderr)` hits the
missing `sys` import, so the handler raises `NameError` and the batch
aborts before any later row; with no send failure (or in dry-run) the loop
does process every row. -/
theorem bulk_send_abort_on_error :
    bulk_send [bulkRow1, bulkRow2] 0 none false (fun p => p == "+15550000001") =
      ([], some "NameError: name 'sys' is not defined") ∧
    bulk_send [bulkRow1, bulkRow2] 0 none false (fun _ => false) =
      ([.sent 0 "+15550000001" (BODY_EN "friend"),
        .sent 1 "+15550000002" (BODY_EN "friend")], none) ∧
    bulk_send [bulkRow1, bulkRow2] 0 none true (fun p => p == "+15550000001") =
      ([.wouldSend 0 "+15550000001" (BODY_EN "friend"),
        .wouldSend 1 "+15550000002" (BODY_EN "friend")], none) := by
  refine ⟨by decide, by decide, by decide⟩

end Fundraiser
